import Mathlib

/-!
Shallow embedding of the GTFS lake realtime server
(`src/gtfslake/realtime.py`, class `GtfsLakeRealtimeServer`).

Python dictionaries holding JSON-serializable values are embedded as
association lists of `String × JVal`; row objects produced by
`DataFrame.iter_rows(named=True)` are embedded as structures whose fields
are `JVal` cells (`JVal.null` standing for Python `None`).  Fallible
dictionary indexing (`d[k]`, raising `KeyError`) is embedded as
`Except String`, the error value being the missing key.
-/

/-- A JSON-serializable Python value, as produced by the realtime server:
`None`, strings, ints, floats (modelled as rationals), booleans, lists and
dicts. -/
inductive JVal where
  | null : JVal
  | str (s : String) : JVal
  | int (n : Int) : JVal
  | num (q : Rat) : JVal
  | bool (b : Bool) : JVal
  | arr (xs : List JVal) : JVal
  | obj (fs : List (String × JVal)) : JVal

/-- A Python dict with string keys: an insertion-ordered association list. -/
abbrev Dict := List (String × JVal)

/-- `k in d.keys()` / value lookup: first binding of `k`, if any. -/
def rawLookup (d : Dict) (k : String) : Option JVal :=
  match d with
  | [] => none
  | (k0, v0) :: rest => if k0 = k then some v0 else rawLookup rest k

/-- Python `d[k]`: raises `KeyError k` when the key is absent. -/
def dget (d : Dict) (k : String) : Except String JVal :=
  match rawLookup d k with
  | some v => Except.ok v
  | none => Except.error k

/-- Python `d[k] = v`: replaces the binding in place when `k` is present
(keeping its position), otherwise appends it (dicts preserve insertion
order). -/
def dset (d : Dict) (k : String) (v : JVal) : Dict :=
  match d with
  | [] => [(k, v)]
  | (k0, v0) :: rest => if k0 = k then (k0, v) :: rest else (k0, v0) :: dset rest k v

/-- Python `d[k1][k2] = v`: indexes `d[k1]` (raising `KeyError k1` when
absent), requires it to be a dict, and updates the inner binding. -/
def dsetInner (d : Dict) (k1 k2 : String) (v : JVal) : Except String Dict := do
  let inner ← dget d k1
  match inner with
  | JVal.obj fs => Except.ok (dset d k1 (JVal.obj (dset fs k2 v)))
  | _ => Except.error "TypeError"

/-- `v is None`. -/
def JVal.isNull : JVal → Bool
  | JVal.null => true
  | _ => false

/-- Scalar cell equality as used by the polars filter
`pl.col(c) == value`: a comparison against a null cell is null, which the
filter treats as false. -/
def JVal.eqCell : JVal → JVal → Bool
  | JVal.str a, JVal.str b => a == b
  | JVal.int a, JVal.int b => a == b
  | JVal.num a, JVal.num b => a == b
  | JVal.bool a, JVal.bool b => a == b
  | _, _ => false

/-! ### Descriptor builders (`_create_trip_descriptor`, `_create_vehicle_descriptor`) -/

/-- The six trip-reference field names listed in `_create_trip_descriptor`. -/
def tripDescriptorFields : List String :=
  ["trip_id", "trip_route_id", "trip_direction_id", "trip_start_time",
   "trip_start_date", "trip_schedule_relationship"]

/-- The four vehicle-reference field names listed in
`_create_vehicle_descriptor`. -/
def vehicleDescriptorFields : List String :=
  ["vehicle_id", "vehicle_label", "vehicle_license_plate",
   "vehicle_wheelchair_accessible"]

/-- `list(input[k] for k in fields)`: materializes every listed cell,
raising `KeyError` at the first absent key. -/
def collectFields (row : Dict) : List String → Except String (List JVal)
  | [] => Except.ok []
  | k :: ks =>
      match rawLookup row k with
      | none => Except.error k
      | some v => do
          let vs ← collectFields row ks
          Except.ok (v :: vs)

/-- One conditional field setter:
`if k in input.keys() and input[k] is not None: out[outKey] = input[k]`.
The output keys are fresh, so the dict assignment appends. -/
def setIfPresent (row : Dict) (k outKey : String) (acc : Dict) : Dict :=
  match rawLookup row k with
  | some v => if v.isNull then acc else acc ++ [(outKey, v)]
  | none => acc

/-- The six conditional setters of `_create_trip_descriptor` (lines
369-385), run in source order on an empty dict. -/
def tripDescriptorDict (row : Dict) : Dict :=
  let d : Dict := []
  let d := setIfPresent row "trip_id" "trip_id" d
  let d := setIfPresent row "trip_route_id" "route_id" d
  let d := setIfPresent row "trip_direction_id" "direction_id" d
  let d := setIfPresent row "trip_start_time" "start_time" d
  let d := setIfPresent row "trip_start_date" "start_date" d
  setIfPresent row "trip_schedule_relationship" "schedule_relationship" d

/-- `_create_trip_descriptor(input)`: if not all six listed cells are null,
build a dict holding exactly the non-null ones (with protocol field names),
else return `None`.  The existence gate indexes every listed key, so a row
missing one raises `KeyError`. -/
def createTripDescriptor (row : Dict) : Except String (Option Dict) := do
  let vs ← collectFields row tripDescriptorFields
  if (vs.all fun v => v.isNull) then
    Except.ok none
  else
    Except.ok (some (tripDescriptorDict row))

/-- The four conditional setters of `_create_vehicle_descriptor` (lines
399-409). -/
def vehicleDescriptorDict (row : Dict) : Dict :=
  let d : Dict := []
  let d := setIfPresent row "vehicle_id" "id" d
  let d := setIfPresent row "vehicle_label" "label" d
  let d := setIfPresent row "vehicle_license_plate" "license_plate" d
  setIfPresent row "vehicle_wheelchair_accessible" "wheelchair_accessible" d

/-- `_create_vehicle_descriptor(input)`: the identical rule over the four
vehicle-reference fields. -/
def createVehicleDescriptor (row : Dict) : Except String (Option Dict) := do
  let vs ← collectFields row vehicleDescriptorFields
  if (vs.all fun v => v.isNull) then
    Except.ok none
  else
    Except.ok (some (vehicleDescriptorDict row))

/-! ### Row types

One structure per realtime table, fields exactly the columns the server
reads from `iter_rows(named=True)` rows; each cell is a `JVal`
(`JVal.null` = SQL NULL). -/

/-- A `service_alerts` row as read by `_service_alerts`. -/
structure ServiceAlertRow where
  service_alert_id : JVal
  cause : JVal
  effect : JVal
  header_text : JVal
  description_text : JVal

/-- An `alert_active_periods` row. -/
structure ActivePeriodRow where
  service_alert_id : JVal
  start_timestamp : JVal
  end_timestamp : JVal

/-- An `alert_informed_entities` row.  It carries the six trip-reference
columns, which `_create_trip_descriptor` indexes unconditionally. -/
structure InformedEntityRow where
  service_alert_id : JVal
  agency_id : JVal
  route_id : JVal
  route_type : JVal
  stop_id : JVal
  trip_id : JVal
  trip_route_id : JVal
  trip_direction_id : JVal
  trip_start_time : JVal
  trip_start_date : JVal
  trip_schedule_relationship : JVal

/-- A `trip_updates` row: id plus the six trip-reference and four
vehicle-reference columns. -/
structure TripUpdateRow where
  trip_update_id : JVal
  trip_id : JVal
  trip_route_id : JVal
  trip_direction_id : JVal
  trip_start_time : JVal
  trip_start_date : JVal
  trip_schedule_relationship : JVal
  vehicle_id : JVal
  vehicle_label : JVal
  vehicle_license_plate : JVal
  vehicle_wheelchair_accessible : JVal

/-- A `trip_stop_time_updates` row. -/
structure StopTimeUpdateRow where
  trip_update_id : JVal
  stop_sequence : JVal
  stop_id : JVal
  arrival_time : JVal
  arrival_delay : JVal
  arrival_uncertainty : JVal
  departure_time : JVal
  departure_delay : JVal
  departure_uncertainty : JVal
  schedule_relationship : JVal

/-- A `vehicle_positions` row. -/
structure VehiclePositionRow where
  vehicle_position_id : JVal
  trip_id : JVal
  trip_route_id : JVal
  trip_direction_id : JVal
  trip_start_time : JVal
  trip_start_date : JVal
  trip_schedule_relationship : JVal
  vehicle_id : JVal
  vehicle_label : JVal
  vehicle_license_plate : JVal
  vehicle_wheelchair_accessible : JVal
  position_latitude : JVal
  position_longitude : JVal
  position_bearing : JVal
  position_odometer : JVal
  position_speed : JVal
  current_stop_sequence : JVal
  stop_id : JVal
  current_status : JVal
  timestamp : JVal
  congestion_level : JVal

/-- The named-row dict handed to the descriptor builders for an informed
entity. -/
def InformedEntityRow.toDict (r : InformedEntityRow) : Dict :=
  [("service_alert_id", r.service_alert_id), ("agency_id", r.agency_id),
   ("route_id", r.route_id), ("route_type", r.route_type),
   ("stop_id", r.stop_id), ("trip_id", r.trip_id),
   ("trip_route_id", r.trip_route_id),
   ("trip_direction_id", r.trip_direction_id),
   ("trip_start_time", r.trip_start_time),
   ("trip_start_date", r.trip_start_date),
   ("trip_schedule_relationship", r.trip_schedule_relationship)]

/-- The named-row dict handed to the descriptor builders for a trip
update. -/
def TripUpdateRow.toDict (r : TripUpdateRow) : Dict :=
  [("trip_update_id", r.trip_update_id), ("trip_id", r.trip_id),
   ("trip_route_id", r.trip_route_id),
   ("trip_direction_id", r.trip_direction_id),
   ("trip_start_time", r.trip_start_time),
   ("trip_start_date", r.trip_start_date),
   ("trip_schedule_relationship", r.trip_schedule_relationship),
   ("vehicle_id", r.vehicle_id), ("vehicle_label", r.vehicle_label),
   ("vehicle_license_plate", r.vehicle_license_plate),
   ("vehicle_wheelchair_accessible", r.vehicle_wheelchair_accessible)]

/-- The named-row dict handed to the descriptor builders for a vehicle
position. -/
def VehiclePositionRow.toDict (r : VehiclePositionRow) : Dict :=
  [("vehicle_position_id", r.vehicle_position_id), ("trip_id", r.trip_id),
   ("trip_route_id", r.trip_route_id),
   ("trip_direction_id", r.trip_direction_id),
   ("trip_start_time", r.trip_start_time),
   ("trip_start_date", r.trip_start_date),
   ("trip_schedule_relationship", r.trip_schedule_relationship),
   ("vehicle_id", r.vehicle_id), ("vehicle_label", r.vehicle_label),
   ("vehicle_license_plate", r.vehicle_license_plate),
   ("vehicle_wheelchair_accessible", r.vehicle_wheelchair_accessible),
   ("position_latitude", r.position_latitude),
   ("position_longitude", r.position_longitude),
   ("position_bearing", r.position_bearing),
   ("position_odometer", r.position_odometer),
   ("position_speed", r.position_speed),
   ("current_stop_sequence", r.current_stop_sequence),
   ("stop_id", r.stop_id), ("current_status", r.current_status),
   ("timestamp", r.timestamp), ("congestion_level", r.congestion_level)]

/-! ### Feed assemblers -/

/-- The arrival block of one stop-time update (lines 224-233): only the
non-null fields among time/delay/uncertainty are set. -/
def arrivalBlock (r : StopTimeUpdateRow) : Dict :=
  let b : Dict := []
  let b := if r.arrival_time.isNull then b else b ++ [("time", r.arrival_time)]
  let b := if r.arrival_delay.isNull then b else b ++ [("delay", r.arrival_delay)]
  if r.arrival_uncertainty.isNull then b else b ++ [("uncertainty", r.arrival_uncertainty)]

/-- The departure block of one stop-time update (lines 235-244). -/
def departureBlock (r : StopTimeUpdateRow) : Dict :=
  let b : Dict := []
  let b := if r.departure_time.isNull then b else b ++ [("time", r.departure_time)]
  let b := if r.departure_delay.isNull then b else b ++ [("delay", r.departure_delay)]
  if r.departure_uncertainty.isNull then b else b ++ [("uncertainty", r.departure_uncertainty)]

/-- The stop-time-update loop body of `_trip_updates` (lines 216-248):
optional `stop_sequence` / `stop_id`, then the arrival and departure dicts
(both always set), then `schedule_relationship` unconditionally. -/
def buildStopTimeUpdate (r : StopTimeUpdateRow) : Dict :=
  let stu : Dict := []
  let stu := if r.stop_sequence.isNull then stu else stu ++ [("stop_sequence", r.stop_sequence)]
  let stu := if r.stop_id.isNull then stu else stu ++ [("stop_id", r.stop_id)]
  let stu := stu ++ [("arrival", JVal.obj (arrivalBlock r))]
  let stu := stu ++ [("departure", JVal.obj (departureBlock r))]
  stu ++ [("schedule_relationship", r.schedule_relationship)]

/-- The per-row loop body of `_trip_updates` (lines 200-250).  Note the
vehicle-descriptor attachment: the source writes
`obj["vehicle_descriptor"]["vehicle"] = vehicle_descriptor`, indexing a key
that was never created on `obj`. -/
def buildTripUpdateEntity (tu : TripUpdateRow) (stus : List StopTimeUpdateRow) :
    Except String JVal := do
  let obj : Dict := [("id", tu.trip_update_id)]
  let obj := dset obj "trip_update" (JVal.obj [])
  let td ← createTripDescriptor tu.toDict
  let obj ← match td with
    | some d => dsetInner obj "trip_update" "trip" (JVal.obj d)
    | none => Except.ok obj
  let vd ← createVehicleDescriptor tu.toDict
  let obj ← match vd with
    | some d => dsetInner obj "vehicle_descriptor" "vehicle" (JVal.obj d)
    | none => Except.ok obj
  let children := (stus.filter fun s => s.trip_update_id.eqCell tu.trip_update_id).map
    (fun s => JVal.obj (buildStopTimeUpdate s))
  let obj ← dsetInner obj "trip_update" "stop_time_update" (JVal.arr children)
  Except.ok (JVal.obj obj)

/-- The entity list assembled by `_trip_updates`, preserving the parent
row-set order. -/
def tripUpdatesObjects (tus : List TripUpdateRow) (stus : List StopTimeUpdateRow) :
    Except String (List JVal) :=
  tus.mapM (fun tu => buildTripUpdateEntity tu stus)

/-- The informed-entity loop body of `_service_alerts` (lines 141-161):
conditional scope fields, then an optional nested trip descriptor. -/
def buildInformedEntity (ie : InformedEntityRow) : Except String JVal := do
  let d : Dict := []
  let d := if ie.agency_id.isNull then d else d ++ [("agency_id", ie.agency_id)]
  let d := if ie.route_id.isNull then d else d ++ [("route_id", ie.route_id)]
  let d := if ie.route_type.isNull then d else d ++ [("route_type", ie.route_type)]
  let d := if ie.stop_id.isNull then d else d ++ [("stop_id", ie.stop_id)]
  let td ← createTripDescriptor ie.toDict
  let d := match td with
    | some t => d ++ [("trip", JVal.obj t)]
    | none => d
  Except.ok (JVal.obj d)

/-- The per-row loop body of `_service_alerts` (lines 109-163): id, cause
and effect emitted unconditionally, single-translation text blocks with
fixed language tag, then the matching active periods and informed entities
in their child-set order. -/
def buildServiceAlertEntity (sa : ServiceAlertRow) (aps : List ActivePeriodRow)
    (ies : List InformedEntityRow) : Except String JVal := do
  let periods := (aps.filter fun p => p.service_alert_id.eqCell sa.service_alert_id).map
    (fun p => JVal.obj [("start", p.start_timestamp), ("end", p.end_timestamp)])
  let ieObjs ← (ies.filter fun i => i.service_alert_id.eqCell sa.service_alert_id).mapM
    buildInformedEntity
  Except.ok (JVal.obj
    [("id", sa.service_alert_id),
     ("alert", JVal.obj
       [("cause", sa.cause),
        ("effect", sa.effect),
        ("header_text", JVal.obj [("translation", JVal.arr
          [JVal.obj [("text", sa.header_text), ("language", JVal.str "de-DE")]])]),
        ("description_text", JVal.obj [("translation", JVal.arr
          [JVal.obj [("text", sa.description_text), ("language", JVal.str "de-DE")]])]),
        ("active_period", JVal.arr periods),
        ("informed_entity", JVal.arr ieObjs)])])

/-- The entity list assembled by `_service_alerts`. -/
def serviceAlertsObjects (sas : List ServiceAlertRow) (aps : List ActivePeriodRow)
    (ies : List InformedEntityRow) : Except String (List JVal) :=
  sas.mapM (fun sa => buildServiceAlertEntity sa aps ies)

/-- The per-row loop body of `_vehicle_positions` (lines 289-332). -/
def buildVehiclePositionEntity (vp : VehiclePositionRow) : Except String JVal := do
  let veh : Dict := []
  let td ← createTripDescriptor vp.toDict
  let veh := match td with
    | some t => veh ++ [("trip", JVal.obj t)]
    | none => veh
  let vd ← createVehicleDescriptor vp.toDict
  let veh := match vd with
    | some v => veh ++ [("vehicle", JVal.obj v)]
    | none => veh
  let pos : Dict := [("latitude", vp.position_latitude), ("longitude", vp.position_longitude)]
  let pos := if vp.position_bearing.isNull then pos else pos ++ [("bearing", vp.position_bearing)]
  let pos := if vp.position_odometer.isNull then pos else pos ++ [("odometer", vp.position_odometer)]
  let pos := if vp.position_speed.isNull then pos else pos ++ [("speed", vp.position_speed)]
  let veh := veh ++ [("position", JVal.obj pos)]
  let veh := if vp.current_stop_sequence.isNull then veh else veh ++ [("current_stop_sequence", vp.current_stop_sequence)]
  let veh := if vp.stop_id.isNull then veh else veh ++ [("stop_id", vp.stop_id)]
  let veh := if vp.current_status.isNull then veh else veh ++ [("current_status", vp.current_status)]
  let veh := if vp.timestamp.isNull then veh else veh ++ [("timestamp", vp.timestamp)]
  let veh := if vp.congestion_level.isNull then veh else veh ++ [("congestion_level", vp.congestion_level)]
  Except.ok (JVal.obj [("id", vp.vehicle_position_id), ("vehicle", JVal.obj veh)])

/-- The entity list assembled by `_vehicle_positions`. -/
def vehiclePositionsObjects (vps : List VehiclePositionRow) : Except String (List JVal) :=
  vps.mapM buildVehiclePositionEntity

/-! ### Envelope builder (`_create_feed_message`) -/

/-- `_create_feed_message(entities)`.  `now` models the value of
`datetime.utcnow().timestamp()` at the moment of assembly, a (fractional)
epoch-second count; the header carries `floor(now)`. -/
def createFeedMessage (now : Rat) (entities : List JVal) : JVal :=
  JVal.obj
    [("header", JVal.obj
      [("gtfs_realtime_version", JVal.str "2.0"),
       ("incrementality", JVal.str "FULL_DATASET"),
       ("timestamp", JVal.int (Rat.floor now))]),
     ("entity", JVal.arr entities)]

/-! ### Serializer

Binary mode is `ParseDict(feed_message, FeedMessage()).SerializeToString()`:
`ParseDict` rejects unknown field names, null values and type or enum
mismatches, and `SerializeToString` rejects missing proto2 required fields.
`checkFeedMessage` models that conformance test over the gtfs-realtime
schema subset the assemblers can emit.  Text mode is `json.dumps`, which is
total on the null/str/int/float/bool/list/dict values the assemblers
produce.  Both wire forms are faithful encodings of the in-memory dict
(`json.loads . json.dumps = id`, and protobuf decode of the encoded message
recovers the parsed content), so a payload is modelled by its decoded JSON
tree tagged with its mode. -/

/-- Does this dict have key `k`? -/
def hasKey (fs : Dict) (k : String) : Bool := (rawLookup fs k).isSome

def isStrVal : JVal → Bool
  | JVal.str _ => true
  | _ => false

def isIntVal : JVal → Bool
  | JVal.int _ => true
  | _ => false

/-- Unsigned integer field: a non-negative int. -/
def isUIntVal : JVal → Bool
  | JVal.int n => decide (0 ≤ n)
  | _ => false

/-- Float/double field: ints are accepted too. -/
def isNumVal : JVal → Bool
  | JVal.int _ => true
  | JVal.num _ => true
  | _ => false

/-- An enum field value: a defined enum name or a defined numeric value. -/
def enumOk (names : List String) (nums : List Int) : JVal → Bool
  | JVal.str s => names.contains s
  | JVal.int n => nums.contains n
  | _ => false

/-- Generic proto2 message check over a JSON dict: every present field must
satisfy its field check (unknown fields rejected), and every required field
must be present. -/
def msgOk (fieldOk : String → JVal → Bool) (required : List String) (v : JVal) : Bool :=
  match v with
  | JVal.obj fs => (fs.all fun kv => fieldOk kv.1 kv.2) && (required.all fun k => hasKey fs k)
  | _ => false

/-- Repeated message field: a list whose members all pass `elemOk`. -/
def repOk (elemOk : JVal → Bool) : JVal → Bool
  | JVal.arr xs => xs.all elemOk
  | _ => false

def translationFieldOk : String → JVal → Bool
  | "text", v => isStrVal v
  | "language", v => isStrVal v
  | _, _ => false

/-- `gtfs.realtime.TranslatedString.Translation`; `text` is required. -/
def checkTranslation (v : JVal) : Bool := msgOk translationFieldOk ["text"] v

def translatedStringFieldOk : String → JVal → Bool
  | "translation", v => repOk checkTranslation v
  | _, _ => false

def checkTranslatedString (v : JVal) : Bool := msgOk translatedStringFieldOk [] v

def timeRangeFieldOk : String → JVal → Bool
  | "start", v => isUIntVal v
  | "end", v => isUIntVal v
  | _, _ => false

def checkTimeRange (v : JVal) : Bool := msgOk timeRangeFieldOk [] v

def tripDescriptorMsgFieldOk : String → JVal → Bool
  | "trip_id", v => isStrVal v
  | "route_id", v => isStrVal v
  | "direction_id", v => isUIntVal v
  | "start_time", v => isStrVal v
  | "start_date", v => isStrVal v
  | "schedule_relationship", v =>
      enumOk ["SCHEDULED", "ADDED", "UNSCHEDULED", "CANCELED", "REPLACEMENT",
              "DUPLICATED", "DELETED"] [0, 1, 2, 3, 5, 6, 7] v
  | _, _ => false

def checkTripDescriptorMsg (v : JVal) : Bool := msgOk tripDescriptorMsgFieldOk [] v

def vehicleDescriptorMsgFieldOk : String → JVal → Bool
  | "id", v => isStrVal v
  | "label", v => isStrVal v
  | "license_plate", v => isStrVal v
  | "wheelchair_accessible", v =>
      enumOk ["NO_VALUE", "UNKNOWN", "WHEELCHAIR_ACCESSIBLE",
              "WHEELCHAIR_INACCESSIBLE"] [0, 1, 2, 3] v
  | _, _ => false

def checkVehicleDescriptorMsg (v : JVal) : Bool := msgOk vehicleDescriptorMsgFieldOk [] v

def entitySelectorFieldOk : String → JVal → Bool
  | "agency_id", v => isStrVal v
  | "route_id", v => isStrVal v
  | "route_type", v => isIntVal v
  | "stop_id", v => isStrVal v
  | "trip", v => checkTripDescriptorMsg v
  | _, _ => false

def checkEntitySelector (v : JVal) : Bool := msgOk entitySelectorFieldOk [] v

def alertFieldOk : String → JVal → Bool
  | "cause", v =>
      enumOk ["UNKNOWN_CAUSE", "OTHER_CAUSE", "TECHNICAL_PROBLEM", "STRIKE",
              "DEMONSTRATION", "ACCIDENT", "HOLIDAY", "WEATHER", "MAINTENANCE",
              "CONSTRUCTION"] [1, 2, 3, 4, 5, 6, 7, 8, 9, 10] v
  | "effect", v =>
      enumOk ["NO_SERVICE", "REDUCED_SERVICE", "SIGNIFICANT_DELAYS", "DETOUR",
              "ADDITIONAL_SERVICE", "MODIFIED_SERVICE", "OTHER_EFFECT",
              "UNKNOWN_EFFECT", "STOP_MOVED", "NO_EFFECT",
              "ACCESSIBILITY_ISSUE"] [1, 2, 3, 4, 5, 6, 7, 8, 9, 10, 11] v
  | "header_text", v => checkTranslatedString v
  | "description_text", v => checkTranslatedString v
  | "active_period", v => repOk checkTimeRange v
  | "informed_entity", v => repOk checkEntitySelector v
  | _, _ => false

def checkAlertMsg (v : JVal) : Bool := msgOk alertFieldOk [] v

def stopTimeEventFieldOk : String → JVal → Bool
  | "time", v => isIntVal v
  | "delay", v => isIntVal v
  | "uncertainty", v => isIntVal v
  | _, _ => false

def checkStopTimeEvent (v : JVal) : Bool := msgOk stopTimeEventFieldOk [] v

def stopTimeUpdateMsgFieldOk : String → JVal → Bool
  | "stop_sequence", v => isUIntVal v
  | "stop_id", v => isStrVal v
  | "arrival", v => checkStopTimeEvent v
  | "departure", v => checkStopTimeEvent v
  | "schedule_relationship", v =>
      enumOk ["SCHEDULED", "SKIPPED", "NO_DATA", "UNSCHEDULED"] [0, 1, 2, 3] v
  | _, _ => false

def checkStopTimeUpdateMsg (v : JVal) : Bool := msgOk stopTimeUpdateMsgFieldOk [] v

/-- `gtfs.realtime.TripUpdate`; its `trip` descriptor is a proto2 required
field. -/
def tripUpdateMsgFieldOk : String → JVal → Bool
  | "trip", v => checkTripDescriptorMsg v
  | "vehicle", v => checkVehicleDescriptorMsg v
  | "stop_time_update", v => repOk checkStopTimeUpdateMsg v
  | _, _ => false

def checkTripUpdateMsg (v : JVal) : Bool := msgOk tripUpdateMsgFieldOk ["trip"] v

def positionFieldOk : String → JVal → Bool
  | "latitude", v => isNumVal v
  | "longitude", v => isNumVal v
  | "bearing", v => isNumVal v
  | "odometer", v => isNumVal v
  | "speed", v => isNumVal v
  | _, _ => false

/-- `gtfs.realtime.Position`; latitude and longitude are required. -/
def checkPosition (v : JVal) : Bool := msgOk positionFieldOk ["latitude", "longitude"] v

def vehiclePositionMsgFieldOk : String → JVal → Bool
  | "trip", v => checkTripDescriptorMsg v
  | "vehicle", v => checkVehicleDescriptorMsg v
  | "position", v => checkPosition v
  | "current_stop_sequence", v => isUIntVal v
  | "stop_id", v => isStrVal v
  | "current_status", v => enumOk ["INCOMING_AT", "STOPPED_AT", "IN_TRANSIT_TO"] [0, 1, 2] v
  | "timestamp", v => isUIntVal v
  | "congestion_level", v =>
      enumOk ["UNKNOWN_CONGESTION_LEVEL", "RUNNING_SMOOTHLY", "STOP_AND_GO",
              "CONGESTION", "SEVERE_CONGESTION"] [0, 1, 2, 3, 4] v
  | _, _ => false

def checkVehiclePositionMsg (v : JVal) : Bool := msgOk vehiclePositionMsgFieldOk [] v

def feedEntityFieldOk : String → JVal → Bool
  | "id", v => isStrVal v
  | "alert", v => checkAlertMsg v
  | "trip_update", v => checkTripUpdateMsg v
  | "vehicle", v => checkVehiclePositionMsg v
  | _, _ => false

/-- `gtfs.realtime.FeedEntity`; `id` is required. -/
def checkFeedEntity (v : JVal) : Bool := msgOk feedEntityFieldOk ["id"] v

def feedHeaderFieldOk : String → JVal → Bool
  | "gtfs_realtime_version", v => isStrVal v
  | "incrementality", v => enumOk ["FULL_DATASET", "DIFFERENTIAL"] [0, 1] v
  | "timestamp", v => isUIntVal v
  | _, _ => false

/-- `gtfs.realtime.FeedHeader`; `gtfs_realtime_version` is required. -/
def checkFeedHeader (v : JVal) : Bool := msgOk feedHeaderFieldOk ["gtfs_realtime_version"] v

def feedMessageFieldOk : String → JVal → Bool
  | "header", v => checkFeedHeader v
  | "entity", v => repOk checkFeedEntity v
  | _, _ => false

/-- Schema conformance of a whole envelope; the `header` is required. -/
def checkFeedMessage (v : JVal) : Bool := msgOk feedMessageFieldOk ["header"] v

/-- A serialized response body, modelled by its decoded JSON tree tagged
with the wire mode. -/
inductive Payload where
  | jsonText (e : JVal) : Payload
  | pbfBytes (e : JVal) : Payload

/-- The logical shape read back from a serialized body. -/
def Payload.decoded : Payload → JVal
  | Payload.jsonText e => e
  | Payload.pbfBytes e => e

/-- Text mode: `json.dumps(feed_message)`, total on assembler output. -/
def serializeText (e : JVal) : Except String Payload :=
  Except.ok (Payload.jsonText e)

/-- Binary mode: `ParseDict` + `SerializeToString`, failing on any schema
violation. -/
def serializePbf (e : JVal) : Except String Payload :=
  if checkFeedMessage e then Except.ok (Payload.pbfBytes e) else Except.error "ParseError"

/-! ### Endpoint handlers

Each HTTP handler is embedded as a function of: the caching section of the
configuration, the optional cache client (a key/value lookup over the
entries currently live in memcache), the request path, the optional `f`
query parameter, the row-sets the lake would return, and the assembly
time.  It yields the `Response` together with the cache stores performed. -/

/-- The caching section of the configuration. -/
structure CachingConfig where
  caching_service_alerts_ttl_seconds : Nat
  caching_trip_updates_ttl_seconds : Nat
  caching_vehicle_positions_ttl_seconds : Nat

/-- An HTTP response: body payload and `media_type`. -/
structure Response where
  content : Payload
  mediaType : String

/-- One `cache.set(key, value, ttl)` call. -/
structure CacheStore where
  key : String
  value : Payload
  ttl : Nat

/-- `format = request.query_params["f"] if "f" in request.query_params else "pbf"`. -/
def formatOf (fQP : Option String) : String :=
  match fQP with
  | some v => v
  | none => "pbf"

/-- The cache key `f"{request.url.path}-{format}"`. -/
def cacheKey (path format : String) : String := path ++ "-" ++ format

/-- `_service_alerts(request)`. -/
def serviceAlertsHandler (cfg : CachingConfig) (cache : Option (String → Option Payload))
    (path : String) (fQP : Option String) (sas : List ServiceAlertRow)
    (aps : List ActivePeriodRow) (ies : List InformedEntityRow) (now : Rat) :
    Except String (Response × List CacheStore) :=
  let format := formatOf fQP
  let cached : Option Payload :=
    match cache with
    | some c => c (cacheKey path format)
    | none => none
  match cached with
  | some payload =>
      let mime := if format == "json" then "application/json" else "application/octet-stream"
      Except.ok (⟨payload, mime⟩, [])
  | none => do
      let objects ← serviceAlertsObjects sas aps ies
      let fm := createFeedMessage now objects
      if format == "json" then do
        let payload ← serializeText fm
        let stores : List CacheStore :=
          match cache with
          | some _ => [⟨cacheKey path format, payload, cfg.caching_service_alerts_ttl_seconds⟩]
          | none => []
        Except.ok (⟨payload, "application/json"⟩, stores)
      else do
        let payload ← serializePbf fm
        let stores : List CacheStore :=
          match cache with
          | some _ => [⟨cacheKey path format, payload, cfg.caching_service_alerts_ttl_seconds⟩]
          | none => []
        Except.ok (⟨payload, "application/octet-stream"⟩, stores)

/-- `_trip_updates(request)`.  Its cache-hit branch decides the MIME type
by re-testing the raw query parameter against `"json"`. -/
def tripUpdatesHandler (cfg : CachingConfig) (cache : Option (String → Option Payload))
    (path : String) (fQP : Option String) (tus : List TripUpdateRow)
    (stus : List StopTimeUpdateRow) (now : Rat) :
    Except String (Response × List CacheStore) :=
  let format := formatOf fQP
  let cached : Option Payload :=
    match cache with
    | some c => c (cacheKey path format)
    | none => none
  match cached with
  | some payload =>
      let isJson := match fQP with
        | some s => s == "json"
        | none => false
      let mime := if isJson then "application/json" else "application/octet-stream"
      Except.ok (⟨payload, mime⟩, [])
  | none => do
      let objects ← tripUpdatesObjects tus stus
      let fm := createFeedMessage now objects
      if format == "json" then do
        let payload ← serializeText fm
        let stores : List CacheStore :=
          match cache with
          | some _ => [⟨cacheKey path format, payload, cfg.caching_trip_updates_ttl_seconds⟩]
          | none => []
        Except.ok (⟨payload, "application/json"⟩, stores)
      else do
        let payload ← serializePbf fm
        let stores : List CacheStore :=
          match cache with
          | some _ => [⟨cacheKey path format, payload, cfg.caching_trip_updates_ttl_seconds⟩]
          | none => []
        Except.ok (⟨payload, "application/octet-stream"⟩, stores)

/-- `_vehicle_positions(request)`. -/
def vehiclePositionsHandler (cfg : CachingConfig) (cache : Option (String → Option Payload))
    (path : String) (fQP : Option String) (vps : List VehiclePositionRow) (now : Rat) :
    Except String (Response × List CacheStore) :=
  let format := formatOf fQP
  let cached : Option Payload :=
    match cache with
    | some c => c (cacheKey path format)
    | none => none
  match cached with
  | some payload =>
      let isJson := match fQP with
        | some s => s == "json"
        | none => false
      let mime := if isJson then "application/json" else "application/octet-stream"
      Except.ok (⟨payload, mime⟩, [])
  | none => do
      let objects ← vehiclePositionsObjects vps
      let fm := createFeedMessage now objects
      if format == "json" then do
        let payload ← serializeText fm
        let stores : List CacheStore :=
          match cache with
          | some _ => [⟨cacheKey path format, payload, cfg.caching_vehicle_positions_ttl_seconds⟩]
          | none => []
        Except.ok (⟨payload, "application/json"⟩, stores)
      else do
        let payload ← serializePbf fm
        let stores : List CacheStore :=
          match cache with
          | some _ => [⟨cacheKey path format, payload, cfg.caching_vehicle_positions_ttl_seconds⟩]
          | none => []
        Except.ok (⟨payload, "application/octet-stream"⟩, stores)

/-! ### Server construction (`__init__`, lines 28-46) -/

/-- Python `d[k1][k2][k3] = v`: two fallible indexings, then an inner
update. -/
def dsetInner2 (d : Dict) (k1 k2 k3 : String) (v : JVal) : Except String Dict := do
  let inner ← dget d k1
  match inner with
  | JVal.obj fs => do
      let fs2 ← dsetInner fs k2 k3 v
      Except.ok (dset d k1 (JVal.obj fs2))
  | _ => Except.error "TypeError"

/-- The default-configuration branch of `__init__` (config file absent,
lines 33-46), statement by statement.  Note that the source writes into
`self._config["caching"]` without ever creating that sub-dict. -/
def loadDefaultConfig : Except String Dict := do
  let config : Dict := []
  let config := dset config "app" (JVal.obj [])
  let config ← dsetInner config "app" "caching_enabled" (JVal.bool false)
  let config ← dsetInner config "app" "cors_enabled" (JVal.bool false)
  let config ← dsetInner config "app" "routing" (JVal.obj [])
  let config ← dsetInner2 config "app" "routing" "service_alerts_endpoint"
    (JVal.str "/gtfs/realtime/service-alerts.pbf")
  let config ← dsetInner2 config "app" "routing" "trip_updates_endpoint"
    (JVal.str "/gtfs/realtime/trip-updates.pbf")
  let config ← dsetInner2 config "app" "routing" "vehicle_positions_endpoint"
    (JVal.str "/gtfs/realtime/vehicle-positions.pbf")
  let config ← dsetInner config "caching" "caching_server_endpoint" (JVal.str "")
  let config ← dsetInner config "caching" "caching_service_alerts_ttl_seconds" (JVal.int 60)
  let config ← dsetInner config "caching" "caching_trip_updates_ttl_seconds" (JVal.int 30)
  let config ← dsetInner config "caching" "caching_vehicle_positions_ttl_seconds" (JVal.int 15)
  Except.ok config

/-- The configuration-loading step of `__init__`: a present configuration
file is parsed as-is, an absent one falls through to the default branch. -/
def serverInitConfig (configFile : Option Dict) : Except String Dict :=
  match configFile with
  | some cfg => Except.ok cfg
  | none => loadDefaultConfig

/-! ### Statement helpers and concrete inputs -/

def Payload.isJsonText : Payload → Bool
  | Payload.jsonText _ => true
  | _ => false

def Payload.isPbfBytes : Payload → Bool
  | Payload.pbfBytes _ => true
  | _ => false

/-- A trip-update row whose only non-null reference field is the vehicle
id. -/
def tuVehicleOnlyRow : TripUpdateRow :=
  ⟨JVal.str "TU1", JVal.null, JVal.null, JVal.null, JVal.null, JVal.null,
   JVal.null, JVal.str "V1", JVal.null, JVal.null, JVal.null⟩

/-- A trip-update row with a trip id and a vehicle id. -/
def tuExampleRow : TripUpdateRow :=
  ⟨JVal.str "TU1", JVal.str "T1", JVal.null, JVal.null, JVal.null, JVal.null,
   JVal.null, JVal.str "V1", JVal.null, JVal.null, JVal.null⟩

/-- A service-alert row whose header text is NULL. -/
def saNullHeaderRow : ServiceAlertRow :=
  ⟨JVal.str "SA1", JVal.str "CONSTRUCTION", JVal.str "DETOUR", JVal.null,
   JVal.str "Use detour route"⟩

/-- The envelope `_service_alerts` assembles from `saNullHeaderRow` alone at
epoch second 1700000000: its header-text translation carries a null
`text`. -/
def saNullHeaderEnvelope : JVal :=
  match serviceAlertsObjects [saNullHeaderRow] [] [] with
  | Except.ok objs => createFeedMessage 1700000000 objs
  | Except.error _ => JVal.null

/-- A stop-time-update row with a zero arrival delay and all other
direction fields null. -/
def stuZeroDelayRow : StopTimeUpdateRow :=
  ⟨JVal.str "TU1", JVal.int 1, JVal.str "S1", JVal.null, JVal.int 0,
   JVal.null, JVal.null, JVal.null, JVal.null, JVal.str "SCHEDULED"⟩

/-- A stop-time-update row with every optional field null. -/
def stuAllNullRow : StopTimeUpdateRow :=
  ⟨JVal.str "TU1", JVal.null, JVal.null, JVal.null, JVal.null, JVal.null,
   JVal.null, JVal.null, JVal.null, JVal.null⟩

/-- A sample caching configuration (the default TTLs). -/
def cfgW : CachingConfig := ⟨60, 30, 15⟩

/-- A cache state holding one entry under key `/p-pbf`. -/
def cacheW : String → Option Payload :=
  fun k => if k = "/p-pbf" then some (Payload.pbfBytes JVal.null) else none

/-! ### Helper lemmas -/

theorem JVal.isNull_iff (v : JVal) : v.isNull = true ↔ v = JVal.null := by
  cases v <;> simp [JVal.isNull]

theorem mem_setIfPresent (row : Dict) (k outKey : String) (acc : Dict)
    (p : String × JVal) :
    p ∈ setIfPresent row k outKey acc ↔
      p ∈ acc ∨ ∃ v, rawLookup row k = some v ∧ v.isNull = false ∧ p = (outKey, v) := by
  unfold setIfPresent
  cases h : rawLookup row k with
  | none => simp
  | some v => cases hn : v.isNull <;> simp [hn]

theorem collectFields_error_of_missing (row : Dict) (ks : List String)
    (h : ∃ k ∈ ks, (rawLookup row k).isNone = true) :
    ∃ k, collectFields row ks = Except.error k ∧ (rawLookup row k).isNone = true := by
  induction ks with
  | nil => simp at h
  | cons k ks ih =>
      by_cases hk : (rawLookup row k).isNone = true
      · refine ⟨k, ?_, hk⟩
        rw [Option.isNone_iff_eq_none] at hk
        simp [collectFields, hk]
      · obtain ⟨k0, hk0mem, hk0⟩ := h
        have hkm : k0 ∈ ks := by
          rcases List.mem_cons.mp hk0mem with h1 | h1
          · exact absurd (h1 ▸ hk0) hk
          · exact h1
        obtain ⟨k1, hcf, hl⟩ := ih ⟨k0, hkm, hk0⟩
        refine ⟨k1, ?_, hl⟩
        cases hv : rawLookup row k with
        | none => simp [hv] at hk
        | some v =>
            simp only [collectFields, hv, hcf]
            rfl

/-! ### Claim theorems -/

/-- C1: (code bug) for a trip-update row whose vehicle-reference fields are
not all null, `_trip_updates` does not attach the vehicle descriptor and
finish: the attachment line indexes `obj["vehicle_descriptor"]`, a key
never created on the entity, so the assembler raises `KeyError` for that
row and the whole trip-updates assembly fails. -/
theorem tripUpdates_vehicle_attach_keyerror :
    buildTripUpdateEntity tuVehicleOnlyRow [] = Except.error "vehicle_descriptor" ∧
    tripUpdatesObjects [tuVehicleOnlyRow] [] = Except.error "vehicle_descriptor" ∧
    buildTripUpdateEntity tuExampleRow [stuZeroDelayRow] = Except.error "vehicle_descriptor" := by
  exact ⟨rfl, rfl, rfl⟩

/-- C2: (code bug) with no configuration file, `__init__` does not fall
back to working defaults: after setting the `app` defaults it assigns into
`self._config["caching"]` without ever creating that sub-dict, so server
construction raises `KeyError` instead of completing. -/
theorem defaultConfig_keyerror :
    serverInitConfig none = Except.error "caching" := by
  exact rfl

/-- C8: for every entity sequence and assembly instant, the envelope
builder emits protocol version "2.0", incrementality "FULL_DATASET" and the
floored current epoch-second timestamp, and wraps the entity sequence
unchanged. -/
theorem feedMessage_header_and_entities (now : Rat) (entities : List JVal) :
    ∃ hdr : Dict,
      createFeedMessage now entities =
        JVal.obj [("header", JVal.obj hdr), ("entity", JVal.arr entities)] ∧
      rawLookup hdr "gtfs_realtime_version" = some (JVal.str "2.0") ∧
      rawLookup hdr "incrementality" = some (JVal.str "FULL_DATASET") ∧
      rawLookup hdr "timestamp" = some (JVal.int (Rat.floor now)) := by
  refine ⟨_, rfl, ?_, ?_, ?_⟩ <;> rfl

/-- C9: (implicit precondition) a row mapping missing any of the listed
trip-reference (resp. vehicle-reference) keys makes the builder raise
`KeyError` — the all-null existence gate indexes every listed key
unconditionally — rather than return a descriptor or absence. -/
theorem descriptorBuilders_missing_key_raises (row : Dict) :
    ((∃ k ∈ tripDescriptorFields, (rawLookup row k).isNone = true) →
      ∃ k, createTripDescriptor row = Except.error k ∧ (rawLookup row k).isNone = true) ∧
    ((∃ k ∈ vehicleDescriptorFields, (rawLookup row k).isNone = true) →
      ∃ k, createVehicleDescriptor row = Except.error k ∧ (rawLookup row k).isNone = true) := by
  constructor
  · intro h
    obtain ⟨k, hcf, hl⟩ := collectFields_error_of_missing row _ h
    refine ⟨k, ?_, hl⟩
    unfold createTripDescriptor
    rw [hcf]
    rfl
  · intro h
    obtain ⟨k, hcf, hl⟩ := collectFields_error_of_missing row _ h
    refine ⟨k, ?_, hl⟩
    unfold createVehicleDescriptor
    rw [hcf]
    rfl

/-- Witness for C9 at the empty row mapping. -/
theorem descriptorBuilders_missing_key_raises_witness :
    ((∃ k ∈ tripDescriptorFields, (rawLookup ([] : Dict) k).isNone = true) ∧
      (∃ k ∈ vehicleDescriptorFields, (rawLookup ([] : Dict) k).isNone = true)) ∧
    (∃ k, createTripDescriptor [] = Except.error k ∧ (rawLookup ([] : Dict) k).isNone = true) ∧
    (∃ k, createVehicleDescriptor [] = Except.error k ∧ (rawLookup ([] : Dict) k).isNone = true) :=
  ⟨⟨by decide, by decide⟩,
   (descriptorBuilders_missing_key_raises []).1 (by decide),
   (descriptorBuilders_missing_key_raises []).2 (by decide)⟩

theorem mem_tripDescriptorDict (row : Dict) (p : String × JVal) :
    p ∈ tripDescriptorDict row ↔
      (∃ v, rawLookup row "trip_id" = some v ∧ v.isNull = false ∧ p = ("trip_id", v)) ∨
      (∃ v, rawLookup row "trip_route_id" = some v ∧ v.isNull = false ∧ p = ("route_id", v)) ∨
      (∃ v, rawLookup row "trip_direction_id" = some v ∧ v.isNull = false ∧ p = ("direction_id", v)) ∨
      (∃ v, rawLookup row "trip_start_time" = some v ∧ v.isNull = false ∧ p = ("start_time", v)) ∨
      (∃ v, rawLookup row "trip_start_date" = some v ∧ v.isNull = false ∧ p = ("start_date", v)) ∨
      (∃ v, rawLookup row "trip_schedule_relationship" = some v ∧ v.isNull = false ∧
        p = ("schedule_relationship", v)) := by
  simp only [tripDescriptorDict, mem_setIfPresent, List.not_mem_nil, false_or, or_assoc]

theorem mem_vehicleDescriptorDict (row : Dict) (p : String × JVal) :
    p ∈ vehicleDescriptorDict row ↔
      (∃ v, rawLookup row "vehicle_id" = some v ∧ v.isNull = false ∧ p = ("id", v)) ∨
      (∃ v, rawLookup row "vehicle_label" = some v ∧ v.isNull = false ∧ p = ("label", v)) ∨
      (∃ v, rawLookup row "vehicle_license_plate" = some v ∧ v.isNull = false ∧
        p = ("license_plate", v)) ∨
      (∃ v, rawLookup row "vehicle_wheelchair_accessible" = some v ∧ v.isNull = false ∧
        p = ("wheelchair_accessible", v)) := by
  simp only [vehicleDescriptorDict, mem_setIfPresent, List.not_mem_nil, false_or, or_assoc]

theorem createTripDescriptor_spec (row : Dict)
    (ht : ∀ k ∈ tripDescriptorFields, (rawLookup row k).isSome = true) :
    ∃ r, createTripDescriptor row = Except.ok r ∧
      (r = none ↔ ∀ k ∈ tripDescriptorFields, rawLookup row k = some JVal.null) ∧
      (r = none ∨ r = some (tripDescriptorDict row)) := by
  obtain ⟨v1, h1⟩ := Option.isSome_iff_exists.mp (ht "trip_id" (by simp [tripDescriptorFields]))
  obtain ⟨v2, h2⟩ := Option.isSome_iff_exists.mp (ht "trip_route_id" (by simp [tripDescriptorFields]))
  obtain ⟨v3, h3⟩ := Option.isSome_iff_exists.mp (ht "trip_direction_id" (by simp [tripDescriptorFields]))
  obtain ⟨v4, h4⟩ := Option.isSome_iff_exists.mp (ht "trip_start_time" (by simp [tripDescriptorFields]))
  obtain ⟨v5, h5⟩ := Option.isSome_iff_exists.mp (ht "trip_start_date" (by simp [tripDescriptorFields]))
  obtain ⟨v6, h6⟩ := Option.isSome_iff_exists.mp (ht "trip_schedule_relationship" (by simp [tripDescriptorFields]))
  have hcf : collectFields row tripDescriptorFields = Except.ok [v1, v2, v3, v4, v5, v6] := by
    simp only [tripDescriptorFields, collectFields, h1, h2, h3, h4, h5, h6]
    rfl
  have hstep : createTripDescriptor row =
      (if ([v1, v2, v3, v4, v5, v6].all fun v => v.isNull) then Except.ok none
       else Except.ok (some (tripDescriptorDict row))) := by
    unfold createTripDescriptor
    rw [hcf]
    rfl
  by_cases hall : ([v1, v2, v3, v4, v5, v6].all fun v => v.isNull) = true
  · refine ⟨none, by rw [hstep, if_pos hall], ?_, Or.inl rfl⟩
    simp only [List.all_cons, List.all_nil, Bool.and_eq_true, and_true] at hall
    obtain ⟨a1, a2, a3, a4, a5, a6⟩ := hall
    have e1 := (JVal.isNull_iff v1).mp a1
    have e2 := (JVal.isNull_iff v2).mp a2
    have e3 := (JVal.isNull_iff v3).mp a3
    have e4 := (JVal.isNull_iff v4).mp a4
    have e5 := (JVal.isNull_iff v5).mp a5
    have e6 := (JVal.isNull_iff v6).mp a6
    constructor
    · intro _ k hk
      simp only [tripDescriptorFields, List.mem_cons, List.not_mem_nil, or_false] at hk
      rcases hk with rfl | rfl | rfl | rfl | rfl | rfl
      · rw [h1, e1]
      · rw [h2, e2]
      · rw [h3, e3]
      · rw [h4, e4]
      · rw [h5, e5]
      · rw [h6, e6]
    · intro _
      rfl
  · refine ⟨some (tripDescriptorDict row), by rw [hstep, if_neg hall], ?_, Or.inr rfl⟩
    constructor
    · intro hcontra
      exact absurd hcontra (by simp)
    · intro hforall
      exfalso
      apply hall
      have e1 : v1 = JVal.null := by
        have := hforall "trip_id" (by simp [tripDescriptorFields])
        rw [h1] at this
        exact Option.some.inj this
      have e2 : v2 = JVal.null := by
        have := hforall "trip_route_id" (by simp [tripDescriptorFields])
        rw [h2] at this
        exact Option.some.inj this
      have e3 : v3 = JVal.null := by
        have := hforall "trip_direction_id" (by simp [tripDescriptorFields])
        rw [h3] at this
        exact Option.some.inj this
      have e4 : v4 = JVal.null := by
        have := hforall "trip_start_time" (by simp [tripDescriptorFields])
        rw [h4] at this
        exact Option.some.inj this
      have e5 : v5 = JVal.null := by
        have := hforall "trip_start_date" (by simp [tripDescriptorFields])
        rw [h5] at this
        exact Option.some.inj this
      have e6 : v6 = JVal.null := by
        have := hforall "trip_schedule_relationship" (by simp [tripDescriptorFields])
        rw [h6] at this
        exact Option.some.inj this
      simp [e1, e2, e3, e4, e5, e6, JVal.isNull]

theorem createVehicleDescriptor_spec (row : Dict)
    (hv : ∀ k ∈ vehicleDescriptorFields, (rawLookup row k).isSome = true) :
    ∃ r, createVehicleDescriptor row = Except.ok r ∧
      (r = none ↔ ∀ k ∈ vehicleDescriptorFields, rawLookup row k = some JVal.null) ∧
      (r = none ∨ r = some (vehicleDescriptorDict row)) := by
  obtain ⟨v1, h1⟩ := Option.isSome_iff_exists.mp (hv "vehicle_id" (by simp [vehicleDescriptorFields]))
  obtain ⟨v2, h2⟩ := Option.isSome_iff_exists.mp (hv "vehicle_label" (by simp [vehicleDescriptorFields]))
  obtain ⟨v3, h3⟩ := Option.isSome_iff_exists.mp (hv "vehicle_license_plate" (by simp [vehicleDescriptorFields]))
  obtain ⟨v4, h4⟩ := Option.isSome_iff_exists.mp (hv "vehicle_wheelchair_accessible" (by simp [vehicleDescriptorFields]))
  have hcf : collectFields row vehicleDescriptorFields = Except.ok [v1, v2, v3, v4] := by
    simp only [vehicleDescriptorFields, collectFields, h1, h2, h3, h4]
    rfl
  have hstep : createVehicleDescriptor row =
      (if ([v1, v2, v3, v4].all fun v => v.isNull) then Except.ok none
       else Except.ok (some (vehicleDescriptorDict row))) := by
    unfold createVehicleDescriptor
    rw [hcf]
    rfl
  by_cases hall : ([v1, v2, v3, v4].all fun v => v.isNull) = true
  · refine ⟨none, by rw [hstep, if_pos hall], ?_, Or.inl rfl⟩
    simp only [List.all_cons, List.all_nil, Bool.and_eq_true, and_true] at hall
    obtain ⟨a1, a2, a3, a4⟩ := hall
    have e1 := (JVal.isNull_iff v1).mp a1
    have e2 := (JVal.isNull_iff v2).mp a2
    have e3 := (JVal.isNull_iff v3).mp a3
    have e4 := (JVal.isNull_iff v4).mp a4
    constructor
    · intro _ k hk
      simp only [vehicleDescriptorFields, List.mem_cons, List.not_mem_nil, or_false] at hk
      rcases hk with rfl | rfl | rfl | rfl
      · rw [h1, e1]
      · rw [h2, e2]
      · rw [h3, e3]
      · rw [h4, e4]
    · intro _
      rfl
  · refine ⟨some (vehicleDescriptorDict row), by rw [hstep, if_neg hall], ?_, Or.inr rfl⟩
    constructor
    · intro hcontra
      exact absurd hcontra (by simp)
    · intro hforall
      exfalso
      apply hall
      have e1 : v1 = JVal.null := by
        have := hforall "vehicle_id" (by simp [vehicleDescriptorFields])
        rw [h1] at this
        exact Option.some.inj this
      have e2 : v2 = JVal.null := by
        have := hforall "vehicle_label" (by simp [vehicleDescriptorFields])
        rw [h2] at this
        exact Option.some.inj this
      have e3 : v3 = JVal.null := by
        have := hforall "vehicle_license_plate" (by simp [vehicleDescriptorFields])
        rw [h3] at this
        exact Option.some.inj this
      have e4 : v4 = JVal.null := by
        have := hforall "vehicle_wheelchair_accessible" (by simp [vehicleDescriptorFields])
        rw [h4] at this
        exact Option.some.inj this
      simp [e1, e2, e3, e4, JVal.isNull]

/-- C4: for a row carrying all six trip-reference (resp. four
vehicle-reference) keys, the builder returns without error; the descriptor
is `None` iff every source field is null (absence, not a null placeholder);
a returned descriptor holds exactly the non-null source fields under their
protocol names; and both builders are pure, so repeated application yields
the same result. -/
theorem descriptorBuilders_presence (row : Dict)
    (ht : ∀ k ∈ tripDescriptorFields, (rawLookup row k).isSome = true)
    (hv : ∀ k ∈ vehicleDescriptorFields, (rawLookup row k).isSome = true) :
    (∃ r, createTripDescriptor row = Except.ok r ∧
      (r = none ↔ ∀ k ∈ tripDescriptorFields, rawLookup row k = some JVal.null) ∧
      ∀ d, r = some d → ∀ p : String × JVal,
        p ∈ d ↔
          (∃ v, rawLookup row "trip_id" = some v ∧ v.isNull = false ∧ p = ("trip_id", v)) ∨
          (∃ v, rawLookup row "trip_route_id" = some v ∧ v.isNull = false ∧ p = ("route_id", v)) ∨
          (∃ v, rawLookup row "trip_direction_id" = some v ∧ v.isNull = false ∧ p = ("direction_id", v)) ∨
          (∃ v, rawLookup row "trip_start_time" = some v ∧ v.isNull = false ∧ p = ("start_time", v)) ∨
          (∃ v, rawLookup row "trip_start_date" = some v ∧ v.isNull = false ∧ p = ("start_date", v)) ∨
          (∃ v, rawLookup row "trip_schedule_relationship" = some v ∧ v.isNull = false ∧
            p = ("schedule_relationship", v))) ∧
    (∃ r, createVehicleDescriptor row = Except.ok r ∧
      (r = none ↔ ∀ k ∈ vehicleDescriptorFields, rawLookup row k = some JVal.null) ∧
      ∀ d, r = some d → ∀ p : String × JVal,
        p ∈ d ↔
          (∃ v, rawLookup row "vehicle_id" = some v ∧ v.isNull = false ∧ p = ("id", v)) ∨
          (∃ v, rawLookup row "vehicle_label" = some v ∧ v.isNull = false ∧ p = ("label", v)) ∨
          (∃ v, rawLookup row "vehicle_license_plate" = some v ∧ v.isNull = false ∧
            p = ("license_plate", v)) ∨
          (∃ v, rawLookup row "vehicle_wheelchair_accessible" = some v ∧ v.isNull = false ∧
            p = ("wheelchair_accessible", v))) ∧
    createTripDescriptor row = createTripDescriptor row ∧
    createVehicleDescriptor row = createVehicleDescriptor row := by
  obtain ⟨r1, hr1, hiff1, hcase1⟩ := createTripDescriptor_spec row ht
  obtain ⟨r2, hr2, hiff2, hcase2⟩ := createVehicleDescriptor_spec row hv
  refine ⟨⟨r1, hr1, hiff1, ?_⟩, ⟨r2, hr2, hiff2, ?_⟩, rfl, rfl⟩
  · intro d hd p
    rcases hcase1 with hc | hc
    · rw [hc] at hd
      exact absurd hd (by simp)
    · rw [hc] at hd
      obtain rfl := Option.some.inj hd
      exact mem_tripDescriptorDict row p
  · intro d hd p
    rcases hcase2 with hc | hc
    · rw [hc] at hd
      exact absurd hd (by simp)
    · rw [hc] at hd
      obtain rfl := Option.some.inj hd
      exact mem_vehicleDescriptorDict row p

/-- Witness for C4 at a concrete trip-update row dict. -/
theorem descriptorBuilders_presence_witness :
    ((∀ k ∈ tripDescriptorFields, (rawLookup tuExampleRow.toDict k).isSome = true) ∧
     (∀ k ∈ vehicleDescriptorFields, (rawLookup tuExampleRow.toDict k).isSome = true)) ∧
    ((∃ r, createTripDescriptor tuExampleRow.toDict = Except.ok r ∧
      (r = none ↔ ∀ k ∈ tripDescriptorFields, rawLookup tuExampleRow.toDict k = some JVal.null) ∧
      ∀ d, r = some d → ∀ p : String × JVal,
        p ∈ d ↔
          (∃ v, rawLookup tuExampleRow.toDict "trip_id" = some v ∧ v.isNull = false ∧ p = ("trip_id", v)) ∨
          (∃ v, rawLookup tuExampleRow.toDict "trip_route_id" = some v ∧ v.isNull = false ∧ p = ("route_id", v)) ∨
          (∃ v, rawLookup tuExampleRow.toDict "trip_direction_id" = some v ∧ v.isNull = false ∧ p = ("direction_id", v)) ∨
          (∃ v, rawLookup tuExampleRow.toDict "trip_start_time" = some v ∧ v.isNull = false ∧ p = ("start_time", v)) ∨
          (∃ v, rawLookup tuExampleRow.toDict "trip_start_date" = some v ∧ v.isNull = false ∧ p = ("start_date", v)) ∨
          (∃ v, rawLookup tuExampleRow.toDict "trip_schedule_relationship" = some v ∧ v.isNull = false ∧
            p = ("schedule_relationship", v))) ∧
    (∃ r, createVehicleDescriptor tuExampleRow.toDict = Except.ok r ∧
      (r = none ↔ ∀ k ∈ vehicleDescriptorFields, rawLookup tuExampleRow.toDict k = some JVal.null) ∧
      ∀ d, r = some d → ∀ p : String × JVal,
        p ∈ d ↔
          (∃ v, rawLookup tuExampleRow.toDict "vehicle_id" = some v ∧ v.isNull = false ∧ p = ("id", v)) ∨
          (∃ v, rawLookup tuExampleRow.toDict "vehicle_label" = some v ∧ v.isNull = false ∧ p = ("label", v)) ∨
          (∃ v, rawLookup tuExampleRow.toDict "vehicle_license_plate" = some v ∧ v.isNull = false ∧
            p = ("license_plate", v)) ∨
          (∃ v, rawLookup tuExampleRow.toDict "vehicle_wheelchair_accessible" = some v ∧ v.isNull = false ∧
            p = ("wheelchair_accessible", v))) ∧
    createTripDescriptor tuExampleRow.toDict = createTripDescriptor tuExampleRow.toDict ∧
    createVehicleDescriptor tuExampleRow.toDict = createVehicleDescriptor tuExampleRow.toDict) :=
  ⟨⟨by decide, by decide⟩,
   descriptorBuilders_presence tuExampleRow.toDict (by decide) (by decide)⟩

theorem lookup_buildStopTimeUpdate_arrival (r : StopTimeUpdateRow) :
    rawLookup (buildStopTimeUpdate r) "arrival" = some (JVal.obj (arrivalBlock r)) := by
  cases h1 : r.stop_sequence.isNull <;> cases h2 : r.stop_id.isNull <;>
    simp [buildStopTimeUpdate, h1, h2, rawLookup]

theorem lookup_buildStopTimeUpdate_departure (r : StopTimeUpdateRow) :
    rawLookup (buildStopTimeUpdate r) "departure" = some (JVal.obj (departureBlock r)) := by
  cases h1 : r.stop_sequence.isNull <;> cases h2 : r.stop_id.isNull <;>
    simp [buildStopTimeUpdate, h1, h2, rawLookup]

theorem lookup_buildStopTimeUpdate_schedule (r : StopTimeUpdateRow) :
    rawLookup (buildStopTimeUpdate r) "schedule_relationship" = some r.schedule_relationship := by
  cases h1 : r.stop_sequence.isNull <;> cases h2 : r.stop_id.isNull <;>
    simp [buildStopTimeUpdate, h1, h2, rawLookup]

theorem mem_arrivalBlock (r : StopTimeUpdateRow) (p : String × JVal) :
    p ∈ arrivalBlock r ↔
      (p = ("time", r.arrival_time) ∧ r.arrival_time.isNull = false) ∨
      (p = ("delay", r.arrival_delay) ∧ r.arrival_delay.isNull = false) ∨
      (p = ("uncertainty", r.arrival_uncertainty) ∧ r.arrival_uncertainty.isNull = false) := by
  cases h1 : r.arrival_time.isNull <;> cases h2 : r.arrival_delay.isNull <;>
    cases h3 : r.arrival_uncertainty.isNull <;> simp [arrivalBlock, h1, h2, h3]

theorem mem_departureBlock (r : StopTimeUpdateRow) (p : String × JVal) :
    p ∈ departureBlock r ↔
      (p = ("time", r.departure_time) ∧ r.departure_time.isNull = false) ∨
      (p = ("delay", r.departure_delay) ∧ r.departure_delay.isNull = false) ∨
      (p = ("uncertainty", r.departure_uncertainty) ∧ r.departure_uncertainty.isNull = false) := by
  cases h1 : r.departure_time.isNull <;> cases h2 : r.departure_delay.isNull <;>
    cases h3 : r.departure_uncertainty.isNull <;> simp [departureBlock, h1, h2, h3]

/-- C5: every emitted stop-time update carries an arrival block holding
exactly the non-null fields among time/delay/uncertainty of the arrival
direction, a departure block likewise, and the `schedule_relationship`
field unconditionally; presence is defined by not-null, so an explicit
falsy value such as a zero delay is still emitted. -/
theorem stopTimeUpdate_blocks_exact (r : StopTimeUpdateRow) :
    rawLookup (buildStopTimeUpdate r) "arrival" = some (JVal.obj (arrivalBlock r)) ∧
    rawLookup (buildStopTimeUpdate r) "departure" = some (JVal.obj (departureBlock r)) ∧
    rawLookup (buildStopTimeUpdate r) "schedule_relationship" = some r.schedule_relationship ∧
    (∀ p : String × JVal, p ∈ arrivalBlock r ↔
      (p = ("time", r.arrival_time) ∧ r.arrival_time.isNull = false) ∨
      (p = ("delay", r.arrival_delay) ∧ r.arrival_delay.isNull = false) ∨
      (p = ("uncertainty", r.arrival_uncertainty) ∧ r.arrival_uncertainty.isNull = false)) ∧
    (∀ p : String × JVal, p ∈ departureBlock r ↔
      (p = ("time", r.departure_time) ∧ r.departure_time.isNull = false) ∨
      (p = ("delay", r.departure_delay) ∧ r.departure_delay.isNull = false) ∨
      (p = ("uncertainty", r.departure_uncertainty) ∧ r.departure_uncertainty.isNull = false)) :=
  ⟨lookup_buildStopTimeUpdate_arrival r, lookup_buildStopTimeUpdate_departure r,
   lookup_buildStopTimeUpdate_schedule r, mem_arrivalBlock r, mem_departureBlock r⟩

/-- C10: every emitted stop-time update contains an arrival and a departure
entry even when all fields of that direction are null — the block is then
present but empty — whereas the trip/vehicle descriptors are omitted
entirely (returned as `None`) when all their source fields are null. -/
theorem stopTimeUpdate_blocks_always_present (r : StopTimeUpdateRow) :
    (rawLookup (buildStopTimeUpdate r) "arrival").isSome = true ∧
    (rawLookup (buildStopTimeUpdate r) "departure").isSome = true ∧
    (r.arrival_time.isNull = true ∧ r.arrival_delay.isNull = true ∧
        r.arrival_uncertainty.isNull = true →
      rawLookup (buildStopTimeUpdate r) "arrival" = some (JVal.obj [])) ∧
    (r.departure_time.isNull = true ∧ r.departure_delay.isNull = true ∧
        r.departure_uncertainty.isNull = true →
      rawLookup (buildStopTimeUpdate r) "departure" = some (JVal.obj [])) ∧
    (∀ row : Dict, (∀ k ∈ tripDescriptorFields, rawLookup row k = some JVal.null) →
      createTripDescriptor row = Except.ok none) ∧
    (∀ row : Dict, (∀ k ∈ vehicleDescriptorFields, rawLookup row k = some JVal.null) →
      createVehicleDescriptor row = Except.ok none) := by
  refine ⟨?_, ?_, ?_, ?_, ?_, ?_⟩
  · rw [lookup_buildStopTimeUpdate_arrival r]
    rfl
  · rw [lookup_buildStopTimeUpdate_departure r]
    rfl
  · intro ⟨ha1, ha2, ha3⟩
    rw [lookup_buildStopTimeUpdate_arrival r]
    have : arrivalBlock r = [] := by
      unfold arrivalBlock
      rw [ha1, ha2, ha3]
      rfl
    rw [this]
  · intro ⟨hd1, hd2, hd3⟩
    rw [lookup_buildStopTimeUpdate_departure r]
    have : departureBlock r = [] := by
      unfold departureBlock
      rw [hd1, hd2, hd3]
      rfl
    rw [this]
  · intro row h
    have ht : ∀ k ∈ tripDescriptorFields, (rawLookup row k).isSome = true := by
      intro k hk
      rw [h k hk]
      rfl
    obtain ⟨r0, hr0, hiff, _⟩ := createTripDescriptor_spec row ht
    rw [hiff.mpr h] at hr0
    exact hr0
  · intro row h
    have hvv : ∀ k ∈ vehicleDescriptorFields, (rawLookup row k).isSome = true := by
      intro k hk
      rw [h k hk]
      rfl
    obtain ⟨r0, hr0, hiff, _⟩ := createVehicleDescriptor_spec row hvv
    rw [hiff.mpr h] at hr0
    exact hr0

/-- Witness for C10 at the all-null stop-time-update row. -/
theorem stopTimeUpdate_blocks_always_present_witness :
    (stuAllNullRow.arrival_time.isNull = true ∧ stuAllNullRow.arrival_delay.isNull = true ∧
      stuAllNullRow.arrival_uncertainty.isNull = true) ∧
    rawLookup (buildStopTimeUpdate stuAllNullRow) "arrival" = some (JVal.obj []) :=
  ⟨by decide, (stopTimeUpdate_blocks_always_present stuAllNullRow).2.2.1 (by decide)⟩

/-- C3 counterexample: for the envelope assembled from a service-alert row
with a NULL header text, text-mode serialization (`json.dumps`) succeeds
while binary-mode serialization fails (`ParseDict` rejects the null
`text` of the translation), so the two modes do not succeed on exactly the
same envelopes. -/
theorem serialization_modes_not_equivalent :
    (serializeText saNullHeaderEnvelope).isOk = true ∧
    (serializePbf saNullHeaderEnvelope).isOk = false := by
  exact ⟨rfl, rfl⟩

/-- C3 (amended): whenever binary-mode serialization of an envelope
succeeds, text-mode serialization succeeds too and both payloads decode to
the same logical shape; the converse direction of the original claim fails
(see the counterexample). -/
theorem serialization_binary_implies_text (e : JVal)
    (h : (serializePbf e).isOk = true) :
    (serializeText e).isOk = true ∧
    ∀ p q, serializePbf e = Except.ok p → serializeText e = Except.ok q →
      p.decoded = q.decoded := by
  refine ⟨rfl, ?_⟩
  intro p q hp hq
  unfold serializeText at hq
  injection hq with hq2
  unfold serializePbf at hp
  by_cases hc : checkFeedMessage e = true
  · rw [if_pos hc] at hp
    injection hp with hp2
    rw [← hp2, ← hq2]
    rfl
  · rw [if_neg hc] at hp
    exact Except.noConfusion hp

/-- Witness for the amended C3 at an empty envelope, whose binary-mode
serialization succeeds. -/
theorem serialization_binary_implies_text_witness :
    (serializePbf (createFeedMessage 1700000000 [])).isOk = true ∧
    ((serializeText (createFeedMessage 1700000000 [])).isOk = true ∧
     ∀ p q, serializePbf (createFeedMessage 1700000000 []) = Except.ok p →
       serializeText (createFeedMessage 1700000000 []) = Except.ok q →
       p.decoded = q.decoded) :=
  ⟨by rfl, serialization_binary_implies_text (createFeedMessage 1700000000 []) (by rfl)⟩

theorem except_bind_ok {α β : Type} {e : Except String α} {f : α → Except String β} {b : β}
    (h : (e >>= f) = Except.ok b) : ∃ a, e = Except.ok a ∧ f a = Except.ok b := by
  cases e with
  | error err => exact Except.noConfusion h
  | ok a => exact ⟨a, rfl, h⟩

theorem formatOf_eq_json_iff (fQP : Option String) :
    (formatOf fQP == "json") = true ↔ fQP = some "json" := by
  cases fQP with
  | none => simp [formatOf]
  | some s => simp [formatOf]

theorem mimeOf_formatOf (fQP : Option String) :
    (if (formatOf fQP == "json") = true then "application/json"
      else "application/octet-stream") =
      (if fQP = some "json" then "application/json" else "application/octet-stream") := by
  cases fQP with
  | none => simp [formatOf]
  | some s => by_cases hs : s = "json" <;> simp [formatOf, hs]

theorem mimeOf_rawParam (fQP : Option String) :
    (if (match fQP with | some s => s == "json" | none => false) = true
      then "application/json" else "application/octet-stream") =
      (if fQP = some "json" then "application/json" else "application/octet-stream") := by
  cases fQP with
  | none => simp
  | some s => by_cases hs : s = "json" <;> simp [hs]

theorem except_ok_bind {α β : Type} (a : α) (f : α → Except String β) :
    (Except.ok a >>= f) = f a := rfl

theorem except_error_bind {α β : Type} (msg : String) (f : α → Except String β) :
    ((Except.error msg : Except String α) >>= f) = Except.error msg := rfl

theorem serviceAlertsHandler_eq (cfg : CachingConfig)
    (cache : Option (String → Option Payload)) (path : String) (fQP : Option String)
    (sas : List ServiceAlertRow) (aps : List ActivePeriodRow)
    (ies : List InformedEntityRow) (now : Rat) :
    serviceAlertsHandler cfg cache path fQP sas aps ies now =
      match (match cache with
             | some c => c (cacheKey path (formatOf fQP))
             | none => none) with
      | some payload =>
          Except.ok (⟨payload, if (formatOf fQP == "json") = true then "application/json"
            else "application/octet-stream"⟩, [])
      | none =>
          match serviceAlertsObjects sas aps ies with
          | Except.error e => Except.error e
          | Except.ok objs =>
              if (formatOf fQP == "json") = true then
                Except.ok (⟨Payload.jsonText (createFeedMessage now objs), "application/json"⟩,
                  match cache with
                  | some _ => [⟨cacheKey path (formatOf fQP),
                      Payload.jsonText (createFeedMessage now objs),
                      cfg.caching_service_alerts_ttl_seconds⟩]
                  | none => [])
              else
                if checkFeedMessage (createFeedMessage now objs) = true then
                  Except.ok (⟨Payload.pbfBytes (createFeedMessage now objs),
                    "application/octet-stream"⟩,
                    match cache with
                    | some _ => [⟨cacheKey path (formatOf fQP),
                        Payload.pbfBytes (createFeedMessage now objs),
                        cfg.caching_service_alerts_ttl_seconds⟩]
                    | none => [])
                else Except.error "ParseError" := by
  simp only [serviceAlertsHandler]
  cases hck : (match cache with
               | some c => c (cacheKey path (formatOf fQP))
               | none => none) with
  | some payload => rfl
  | none =>
      cases hos : serviceAlertsObjects sas aps ies with
      | error e => rfl
      | ok objs =>
          by_cases hj : (formatOf fQP == "json") = true
          · simp [serializeText, hj, except_ok_bind]
          · by_cases hcm : checkFeedMessage (createFeedMessage now objs) = true <;>
              simp [serializePbf, hj, hcm, except_ok_bind, except_error_bind]

theorem tripUpdatesHandler_eq (cfg : CachingConfig)
    (cache : Option (String → Option Payload)) (path : String) (fQP : Option String)
    (tus : List TripUpdateRow) (stus : List StopTimeUpdateRow) (now : Rat) :
    tripUpdatesHandler cfg cache path fQP tus stus now =
      match (match cache with
             | some c => c (cacheKey path (formatOf fQP))
             | none => none) with
      | some payload =>
          Except.ok (⟨payload,
            if (match fQP with | some s => s == "json" | none => false) = true
            then "application/json" else "application/octet-stream"⟩, [])
      | none =>
          match tripUpdatesObjects tus stus with
          | Except.error e => Except.error e
          | Except.ok objs =>
              if (formatOf fQP == "json") = true then
                Except.ok (⟨Payload.jsonText (createFeedMessage now objs), "application/json"⟩,
                  match cache with
                  | some _ => [⟨cacheKey path (formatOf fQP),
                      Payload.jsonText (createFeedMessage now objs),
                      cfg.caching_trip_updates_ttl_seconds⟩]
                  | none => [])
              else
                if checkFeedMessage (createFeedMessage now objs) = true then
                  Except.ok (⟨Payload.pbfBytes (createFeedMessage now objs),
                    "application/octet-stream"⟩,
                    match cache with
                    | some _ => [⟨cacheKey path (formatOf fQP),
                        Payload.pbfBytes (createFeedMessage now objs),
                        cfg.caching_trip_updates_ttl_seconds⟩]
                    | none => [])
                else Except.error "ParseError" := by
  simp only [tripUpdatesHandler]
  cases hck : (match cache with
               | some c => c (cacheKey path (formatOf fQP))
               | none => none) with
  | some payload => rfl
  | none =>
      cases hos : tripUpdatesObjects tus stus with
      | error e => rfl
      | ok objs =>
          by_cases hj : (formatOf fQP == "json") = true
          · simp [serializeText, hj, except_ok_bind]
          · by_cases hcm : checkFeedMessage (createFeedMessage now objs) = true <;>
              simp [serializePbf, hj, hcm, except_ok_bind, except_error_bind]

theorem vehiclePositionsHandler_eq (cfg : CachingConfig)
    (cache : Option (String → Option Payload)) (path : String) (fQP : Option String)
    (vps : List VehiclePositionRow) (now : Rat) :
    vehiclePositionsHandler cfg cache path fQP vps now =
      match (match cache with
             | some c => c (cacheKey path (formatOf fQP))
             | none => none) with
      | some payload =>
          Except.ok (⟨payload,
            if (match fQP with | some s => s == "json" | none => false) = true
            then "application/json" else "application/octet-stream"⟩, [])
      | none =>
          match vehiclePositionsObjects vps with
          | Except.error e => Except.error e
          | Except.ok objs =>
              if (formatOf fQP == "json") = true then
                Except.ok (⟨Payload.jsonText (createFeedMessage now objs), "application/json"⟩,
                  match cache with
                  | some _ => [⟨cacheKey path (formatOf fQP),
                      Payload.jsonText (createFeedMessage now objs),
                      cfg.caching_vehicle_positions_ttl_seconds⟩]
                  | none => [])
              else
                if checkFeedMessage (createFeedMessage now objs) = true then
                  Except.ok (⟨Payload.pbfBytes (createFeedMessage now objs),
                    "application/octet-stream"⟩,
                    match cache with
                    | some _ => [⟨cacheKey path (formatOf fQP),
                        Payload.pbfBytes (createFeedMessage now objs),
                        cfg.caching_vehicle_positions_ttl_seconds⟩]
                    | none => [])
                else Except.error "ParseError" := by
  simp only [vehiclePositionsHandler]
  cases hck : (match cache with
               | some c => c (cacheKey path (formatOf fQP))
               | none => none) with
  | some payload => rfl
  | none =>
      cases hos : vehiclePositionsObjects vps with
      | error e => rfl
      | ok objs =>
          by_cases hj : (formatOf fQP == "json") = true
          · simp [serializeText, hj, except_ok_bind]
          · by_cases hcm : checkFeedMessage (createFeedMessage now objs) = true <;>
              simp [serializePbf, hj, hcm, except_ok_bind, except_error_bind]

/-- C6: on all three endpoints the `f` query parameter selects the output
format: absent or non-`json` values yield the binary MIME type (and, when
no cache is wired, a serialized-protobuf payload of the assembled
envelope), while `f=json` yields `application/json` (and the structured
text payload). -/
theorem format_selector_dispatch (cfg : CachingConfig)
    (cache : Option (String → Option Payload)) (path : String) (fQP : Option String)
    (sas : List ServiceAlertRow) (aps : List ActivePeriodRow) (ies : List InformedEntityRow)
    (tus : List TripUpdateRow) (stus : List StopTimeUpdateRow)
    (vps : List VehiclePositionRow) (now : Rat) :
    (∀ resp stores,
      serviceAlertsHandler cfg cache path fQP sas aps ies now = Except.ok (resp, stores) →
      resp.mediaType =
        if fQP = some "json" then "application/json" else "application/octet-stream") ∧
    (∀ resp stores,
      tripUpdatesHandler cfg cache path fQP tus stus now = Except.ok (resp, stores) →
      resp.mediaType =
        if fQP = some "json" then "application/json" else "application/octet-stream") ∧
    (∀ resp stores,
      vehiclePositionsHandler cfg cache path fQP vps now = Except.ok (resp, stores) →
      resp.mediaType =
        if fQP = some "json" then "application/json" else "application/octet-stream") ∧
    (∀ resp stores,
      serviceAlertsHandler cfg none path fQP sas aps ies now = Except.ok (resp, stores) →
      ∃ objs, serviceAlertsObjects sas aps ies = Except.ok objs ∧
        resp.content =
          if fQP = some "json" then Payload.jsonText (createFeedMessage now objs)
          else Payload.pbfBytes (createFeedMessage now objs)) ∧
    (∀ resp stores,
      tripUpdatesHandler cfg none path fQP tus stus now = Except.ok (resp, stores) →
      ∃ objs, tripUpdatesObjects tus stus = Except.ok objs ∧
        resp.content =
          if fQP = some "json" then Payload.jsonText (createFeedMessage now objs)
          else Payload.pbfBytes (createFeedMessage now objs)) ∧
    (∀ resp stores,
      vehiclePositionsHandler cfg none path fQP vps now = Except.ok (resp, stores) →
      ∃ objs, vehiclePositionsObjects vps = Except.ok objs ∧
        resp.content =
          if fQP = some "json" then Payload.jsonText (createFeedMessage now objs)
          else Payload.pbfBytes (createFeedMessage now objs)) := by
  refine ⟨?_, ?_, ?_, ?_, ?_, ?_⟩
  · intro resp stores h
    rw [serviceAlertsHandler_eq] at h
    split at h
    next payload heq =>
      injection h with h2
      injection h2 with hresp hstores
      rw [← hresp]
      exact mimeOf_formatOf fQP
    next heq =>
      split at h
      next e heq2 => exact Except.noConfusion h
      next objs heq2 =>
        split at h
        next hj =>
          injection h with h2
          injection h2 with hresp hstores
          rw [← hresp]
          rw [if_pos ((formatOf_eq_json_iff fQP).mp hj)]
        next hj =>
          split at h
          next hcm =>
            injection h with h2
            injection h2 with hresp hstores
            rw [← hresp]
            rw [if_neg (fun hc => hj ((formatOf_eq_json_iff fQP).mpr hc))]
          next hcm => exact Except.noConfusion h
  · intro resp stores h
    rw [tripUpdatesHandler_eq] at h
    split at h
    next payload heq =>
      injection h with h2
      injection h2 with hresp hstores
      rw [← hresp]
      exact mimeOf_rawParam fQP
    next heq =>
      split at h
      next e heq2 => exact Except.noConfusion h
      next objs heq2 =>
        split at h
        next hj =>
          injection h with h2
          injection h2 with hresp hstores
          rw [← hresp]
          rw [if_pos ((formatOf_eq_json_iff fQP).mp hj)]
        next hj =>
          split at h
          next hcm =>
            injection h with h2
            injection h2 with hresp hstores
            rw [← hresp]
            rw [if_neg (fun hc => hj ((formatOf_eq_json_iff fQP).mpr hc))]
          next hcm => exact Except.noConfusion h
  · intro resp stores h
    rw [vehiclePositionsHandler_eq] at h
    split at h
    next payload heq =>
      injection h with h2
      injection h2 with hresp hstores
      rw [← hresp]
      exact mimeOf_rawParam fQP
    next heq =>
      split at h
      next e heq2 => exact Except.noConfusion h
      next objs heq2 =>
        split at h
        next hj =>
          injection h with h2
          injection h2 with hresp hstores
          rw [← hresp]
          rw [if_pos ((formatOf_eq_json_iff fQP).mp hj)]
        next hj =>
          split at h
          next hcm =>
            injection h with h2
            injection h2 with hresp hstores
            rw [← hresp]
            rw [if_neg (fun hc => hj ((formatOf_eq_json_iff fQP).mpr hc))]
          next hcm => exact Except.noConfusion h
  · intro resp stores h
    rw [serviceAlertsHandler_eq] at h
    split at h
    next payload heq => simp at heq
    next heq =>
      split at h
      next e heq2 => exact Except.noConfusion h
      next objs heq2 =>
        refine ⟨objs, heq2, ?_⟩
        split at h
        next hj =>
          injection h with h2
          injection h2 with hresp hstores
          rw [← hresp]
          rw [if_pos ((formatOf_eq_json_iff fQP).mp hj)]
        next hj =>
          split at h
          next hcm =>
            injection h with h2
            injection h2 with hresp hstores
            rw [← hresp]
            rw [if_neg (fun hc => hj ((formatOf_eq_json_iff fQP).mpr hc))]
          next hcm => exact Except.noConfusion h
  · intro resp stores h
    rw [tripUpdatesHandler_eq] at h
    split at h
    next payload heq => simp at heq
    next heq =>
      split at h
      next e heq2 => exact Except.noConfusion h
      next objs heq2 =>
        refine ⟨objs, heq2, ?_⟩
        split at h
        next hj =>
          injection h with h2
          injection h2 with hresp hstores
          rw [← hresp]
          rw [if_pos ((formatOf_eq_json_iff fQP).mp hj)]
        next hj =>
          split at h
          next hcm =>
            injection h with h2
            injection h2 with hresp hstores
            rw [← hresp]
            rw [if_neg (fun hc => hj ((formatOf_eq_json_iff fQP).mpr hc))]
          next hcm => exact Except.noConfusion h
  · intro resp stores h
    rw [vehiclePositionsHandler_eq] at h
    split at h
    next payload heq => simp at heq
    next heq =>
      split at h
      next e heq2 => exact Except.noConfusion h
      next objs heq2 =>
        refine ⟨objs, heq2, ?_⟩
        split at h
        next hj =>
          injection h with h2
          injection h2 with hresp hstores
          rw [← hresp]
          rw [if_pos ((formatOf_eq_json_iff fQP).mp hj)]
        next hj =>
          split at h
          next hcm =>
            injection h with h2
            injection h2 with hresp hstores
            rw [← hresp]
            rw [if_neg (fun hc => hj ((formatOf_eq_json_iff fQP).mpr hc))]
          next hcm => exact Except.noConfusion h

/-- Witness for C6: a cacheless binary-mode request on the service-alerts
endpoint. -/
theorem format_selector_dispatch_witness :
    serviceAlertsHandler cfgW none "/p" none [] [] [] 0 =
      Except.ok (⟨Payload.pbfBytes (createFeedMessage 0 []), "application/octet-stream"⟩, []) ∧
    (⟨Payload.pbfBytes (createFeedMessage 0 []), "application/octet-stream"⟩ : Response).mediaType =
      if (none : Option String) = some "json" then "application/json"
      else "application/octet-stream" :=
  ⟨by rfl,
   (format_selector_dispatch cfgW none "/p" none [] [] [] [] [] [] 0).1 _ _ (by rfl)⟩

/-- C7: with caching enabled, each endpoint keys the cache by
`path ++ "-" ++ format`; a hit returns the stored payload as-is — the
result does not depend on the lake row-sets or the assembly instant, and
nothing is stored — while a miss runs the pipeline and stores the
serialized response under that key with the TTL of that feed kind (the
three feed kinds reading three independent configuration entries). -/
theorem cache_hit_miss_behavior (cfg : CachingConfig) (c : String → Option Payload)
    (path : String) (fQP : Option String)
    (sas sas2 : List ServiceAlertRow) (aps aps2 : List ActivePeriodRow)
    (ies ies2 : List InformedEntityRow) (tus tus2 : List TripUpdateRow)
    (stus stus2 : List StopTimeUpdateRow) (vps vps2 : List VehiclePositionRow)
    (now now2 : Rat) :
    (∀ v, c (cacheKey path (formatOf fQP)) = some v →
      (∃ m, serviceAlertsHandler cfg (some c) path fQP sas aps ies now =
        Except.ok (⟨v, m⟩, [])) ∧
      (∃ m, tripUpdatesHandler cfg (some c) path fQP tus stus now =
        Except.ok (⟨v, m⟩, [])) ∧
      (∃ m, vehiclePositionsHandler cfg (some c) path fQP vps now =
        Except.ok (⟨v, m⟩, [])) ∧
      serviceAlertsHandler cfg (some c) path fQP sas aps ies now =
        serviceAlertsHandler cfg (some c) path fQP sas2 aps2 ies2 now2 ∧
      tripUpdatesHandler cfg (some c) path fQP tus stus now =
        tripUpdatesHandler cfg (some c) path fQP tus2 stus2 now2 ∧
      vehiclePositionsHandler cfg (some c) path fQP vps now =
        vehiclePositionsHandler cfg (some c) path fQP vps2 now2) ∧
    (c (cacheKey path (formatOf fQP)) = none →
      (∀ resp stores,
        serviceAlertsHandler cfg (some c) path fQP sas aps ies now = Except.ok (resp, stores) →
        stores = [⟨cacheKey path (formatOf fQP), resp.content,
          cfg.caching_service_alerts_ttl_seconds⟩]) ∧
      (∀ resp stores,
        tripUpdatesHandler cfg (some c) path fQP tus stus now = Except.ok (resp, stores) →
        stores = [⟨cacheKey path (formatOf fQP), resp.content,
          cfg.caching_trip_updates_ttl_seconds⟩]) ∧
      (∀ resp stores,
        vehiclePositionsHandler cfg (some c) path fQP vps now = Except.ok (resp, stores) →
        stores = [⟨cacheKey path (formatOf fQP), resp.content,
          cfg.caching_vehicle_positions_ttl_seconds⟩])) := by
  constructor
  · intro v hv
    have e1 := serviceAlertsHandler_eq cfg (some c) path fQP sas aps ies now
    have e1b := serviceAlertsHandler_eq cfg (some c) path fQP sas2 aps2 ies2 now2
    have e2 := tripUpdatesHandler_eq cfg (some c) path fQP tus stus now
    have e2b := tripUpdatesHandler_eq cfg (some c) path fQP tus2 stus2 now2
    have e3 := vehiclePositionsHandler_eq cfg (some c) path fQP vps now
    have e3b := vehiclePositionsHandler_eq cfg (some c) path fQP vps2 now2
    simp only [hv] at e1 e1b e2 e2b e3 e3b
    exact ⟨⟨_, e1⟩, ⟨_, e2⟩, ⟨_, e3⟩, by rw [e1, e1b], by rw [e2, e2b], by rw [e3, e3b]⟩
  · intro hnone
    refine ⟨?_, ?_, ?_⟩
    · intro resp stores h
      rw [serviceAlertsHandler_eq] at h
      split at h
      next payload heq => simp [hnone] at heq
      next heq =>
        split at h
        next e heq2 => exact Except.noConfusion h
        next objs heq2 =>
          split at h
          next hj =>
            injection h with h2
            injection h2 with hresp hstores
            rw [← hresp, ← hstores]
          next hj =>
            split at h
            next hcm =>
              injection h with h2
              injection h2 with hresp hstores
              rw [← hresp, ← hstores]
            next hcm => exact Except.noConfusion h
    · intro resp stores h
      rw [tripUpdatesHandler_eq] at h
      split at h
      next payload heq => simp [hnone] at heq
      next heq =>
        split at h
        next e heq2 => exact Except.noConfusion h
        next objs heq2 =>
          split at h
          next hj =>
            injection h with h2
            injection h2 with hresp hstores
            rw [← hresp, ← hstores]
          next hj =>
            split at h
            next hcm =>
              injection h with h2
              injection h2 with hresp hstores
              rw [← hresp, ← hstores]
            next hcm => exact Except.noConfusion h
    · intro resp stores h
      rw [vehiclePositionsHandler_eq] at h
      split at h
      next payload heq => simp [hnone] at heq
      next heq =>
        split at h
        next e heq2 => exact Except.noConfusion h
        next objs heq2 =>
          split at h
          next hj =>
            injection h with h2
            injection h2 with hresp hstores
            rw [← hresp, ← hstores]
          next hj =>
            split at h
            next hcm =>
              injection h with h2
              injection h2 with hresp hstores
              rw [← hresp, ← hstores]
            next hcm => exact Except.noConfusion h

/-- Witness for C7: a concrete hit (the stored payload is served and the
result ignores the row-sets and the clock) and a concrete miss (the
serialized response is stored under the request key with the
service-alerts TTL). -/
theorem cache_hit_miss_behavior_witness :
    (cacheW (cacheKey "/p" (formatOf none)) = some (Payload.pbfBytes JVal.null) ∧
     serviceAlertsHandler cfgW (some cacheW) "/p" none [] [] [] 0 =
       serviceAlertsHandler cfgW (some cacheW) "/p" none [saNullHeaderRow] [] [] 1) ∧
    (cacheW (cacheKey "/q" (formatOf none)) = none ∧
     serviceAlertsHandler cfgW (some cacheW) "/q" none [] [] [] 0 =
       Except.ok (⟨Payload.pbfBytes (createFeedMessage 0 []), "application/octet-stream"⟩,
         [⟨cacheKey "/q" (formatOf none), Payload.pbfBytes (createFeedMessage 0 []),
           cfgW.caching_service_alerts_ttl_seconds⟩]) ∧
     [(⟨cacheKey "/q" (formatOf none), Payload.pbfBytes (createFeedMessage 0 []),
         cfgW.caching_service_alerts_ttl_seconds⟩ : CacheStore)] =
       [⟨cacheKey "/q" (formatOf none),
         (⟨Payload.pbfBytes (createFeedMessage 0 []),
           "application/octet-stream"⟩ : Response).content,
         cfgW.caching_service_alerts_ttl_seconds⟩]) :=
  ⟨⟨by rfl,
    ((cache_hit_miss_behavior cfgW cacheW "/p" none [] [saNullHeaderRow] [] [] [] [] [] []
        [] [] [] [] 0 1).1 (Payload.pbfBytes JVal.null) (by rfl)).2.2.2.1⟩,
   ⟨by rfl, by rfl,
    ((cache_hit_miss_behavior cfgW cacheW "/q" none [] [] [] [] [] [] [] [] [] [] [] [] 0
        0).2 (by rfl)).1
      (⟨Payload.pbfBytes (createFeedMessage 0 []), "application/octet-stream"⟩)
      ([⟨cacheKey "/q" (formatOf none), Payload.pbfBytes (createFeedMessage 0 []),
        cfgW.caching_service_alerts_ttl_seconds⟩]) (by rfl)⟩⟩
